import Mathlib

set_option maxRecDepth 100000

/-!
Verification of the OptRoute bridge-optimization program (src/OptRoute.py).

The program computes, for two cities A and B on opposite sides of a
horizontal river strip of width `river_width` (near bank at y = 0, far bank
at y = river_width), the total travel distance through a vertical bridge at
abscissa `bridge_x`, and minimizes that total over bridge positions in
[0, 6].

The embedding below translates the arithmetic of the source into functions
over the real numbers.  The module-level constant `river_width = 1` is kept
as a constant; `calculate_distance` additionally takes the width as an
explicit first parameter (the specification treats the river width as a
general non-negative parameter), and the constant is passed at every call
site that corresponds to the source.
-/

namespace OptRoute

/-- The module-level constant `river_width = 1` of the source. -/
noncomputable def river_width : ℝ := 1

/-- Embedding of `calculate_distance(bridge_x, A_x, A_y, B_x, B_y)`
(src/OptRoute.py lines 18-23), with the global `river_width` lifted to an
explicit first parameter.  In the source `bridge_y1 = 0` and
`bridge_y2 = river_width`, so the two legs are
`dist_A_to_bridge = sqrt((A_x - bridge_x)^2 + (A_y - 0)^2)` and
`dist_bridge_to_B = sqrt((B_x - bridge_x)^2 + (B_y - river_width)^2)`,
and the result is `dist_A_to_bridge + river_width + dist_bridge_to_B`. -/
noncomputable def calculate_distance (river_width bridge_x A_x A_y B_x B_y : ℝ) : ℝ :=
  Real.sqrt ((A_x - bridge_x) ^ 2 + (A_y - 0) ^ 2) + river_width +
    Real.sqrt ((B_x - bridge_x) ^ 2 + (B_y - river_width) ^ 2)

/-- The distance from A to the near bank, written exactly as the
specification words it: `dist_A = sqrt((Ax - bridge_x)^2 + (Ay - 0)^2)`. -/
noncomputable def spec_dist_A (bridge_x A_x A_y : ℝ) : ℝ :=
  Real.sqrt ((A_x - bridge_x) ^ 2 + (A_y - 0) ^ 2)

/-- The distance from the far bank to B, written exactly as the
specification words it: `dist_B = sqrt((Bx - bridge_x)^2 + (By - w)^2)`. -/
noncomputable def spec_dist_B (w bridge_x B_x B_y : ℝ) : ℝ :=
  Real.sqrt ((B_x - bridge_x) ^ 2 + (B_y - w) ^ 2)

/-- The inline recomputation `dist_A_to_bridge` of src/OptRoute.py line 93:
`np.sqrt((A_x - bridge_x) ** 2 + (A_y - 0) ** 2)`. -/
noncomputable def update_dist_A_to_bridge (bridge_x A_x A_y : ℝ) : ℝ :=
  Real.sqrt ((A_x - bridge_x) ^ 2 + (A_y - 0) ^ 2)

/-- The inline recomputation `dist_bridge_to_B` of src/OptRoute.py line 94:
`np.sqrt((B_x - bridge_x) ** 2 + (B_y - river_width) ** 2)`. -/
noncomputable def update_dist_bridge_to_B (bridge_x B_x B_y : ℝ) : ℝ :=
  Real.sqrt ((B_x - bridge_x) ^ 2 + (B_y - river_width) ^ 2)

/-! ## Input parsing in `update_graph` (src/OptRoute.py lines 73-81)

The Dash callback receives the four coordinate fields as arbitrary values
(a number, a string, or Python `None` when a number field is empty or
holds unparsable text).  The source wraps the four `float(...)`
conversions in a `try` block whose single handler catches `ValueError`
only.  `float` raises `ValueError` on a non-numeric string and
`TypeError` on `None`; an exception the handler does not catch escapes
the callback.  The model below returns `Except.ok` for the two paths the
function itself completes (a rendered figure, or the error figure with
its message) and `Except.error` for an escaping exception. -/

/-- A value the presentation layer can hand to the callback. -/
inductive PyVal where
  | num (x : ℝ)
  | str (s : String)
  | pynone

/-- The two exception kinds `float` can raise here. -/
inductive PyExc where
  | valueError
  | typeError
deriving DecidableEq

/-- Accumulate decimal digits; fails on the first non-digit character. -/
def digitsValAux : List Char → ℕ → Option ℕ
  | [], acc => some acc
  | c :: r, acc => if c.isDigit then digitsValAux r (10 * acc + (c.toNat - 48)) else Option.none

/-- A non-empty all-digit string, as a natural number. -/
def digitsVal (l : List Char) : Option ℕ :=
  if l.isEmpty then Option.none else digitsValAux l 0

/-- Unsigned numeric literal: digits with at most one decimal point
(Python `float` also accepts exponents and special values, which no claim
exercises; on every non-numeric string both agree in raising). -/
def floatCore (l : List Char) : Option ℚ :=
  match l.splitOn '.' with
  | [ds] => (digitsVal ds).map (fun n => (n : ℚ))
  | [ip, fp] =>
    if ip.isEmpty ∧ fp.isEmpty then Option.none
    else
      match digitsValAux ip 0, digitsValAux fp 0 with
      | some i, some f => some ((i : ℚ) + (f : ℚ) / (10 : ℚ) ^ fp.length)
      | _, _ => Option.none
  | _ => Option.none

/-- Optionally signed numeric literal. -/
def floatOfList : List Char → Option ℚ
  | '-' :: r => (floatCore r).map Neg.neg
  | '+' :: r => floatCore r
  | l => floatCore l

/-- Conversion of a string to a rational value, when it is numeric. -/
def floatOfString (s : String) : Option ℚ := floatOfList s.data

/-- The behavior of the Python builtin `float` on a callback value:
a number converts to itself, a numeric string to its value, a
non-numeric string raises `ValueError`, and `None` raises `TypeError`. -/
noncomputable def pyFloat : PyVal → Except PyExc ℝ
  | .num x => .ok x
  | .str s =>
    match floatOfString s with
    | some q => .ok (q : ℝ)
    | Option.none => .error .valueError
  | .pynone => .error .typeError

/-- The error message of src/OptRoute.py line 81. -/
def invalid_coordinates_msg : String :=
  "Invalid coordinates. Please input valid numbers for cities A and B."

/-- What `update_graph` produces when it returns normally: either the
error figure `(go.Figure(), message)` from the `except ValueError` branch,
or a rendered figure computed from the four parsed coordinates. -/
inductive UpdateOutcome where
  | errorFigure (msg : String)
  | rendered (A_x A_y B_x B_y : ℝ)

/-- The `try` block of src/OptRoute.py lines 75-79: convert the four
coordinates in order; the first exception aborts the block. -/
noncomputable def tryFloats (A_x A_y B_x B_y : PyVal) : Except PyExc (ℝ × ℝ × ℝ × ℝ) := do
  let ax ← pyFloat A_x
  let ay ← pyFloat A_y
  let bx ← pyFloat B_x
  let bY ← pyFloat B_y
  pure (ax, ay, bx, bY)

/-- The parsing and dispatch of `update_graph` (src/OptRoute.py lines
73-81): the handler catches `ValueError` only, so a `TypeError` escapes
the callback as a crash (`Except.error`). -/
noncomputable def update_graph_parse (A_x A_y B_x B_y : PyVal) : Except PyExc UpdateOutcome :=
  match tryFloats A_x A_y B_x B_y with
  | .ok (ax, ay, bx, bY) => .ok (.rendered ax ay bx bY)
  | .error .valueError => .ok (.errorFigure invalid_coordinates_msg)
  | .error .typeError => .error .typeError

/-- Claim C5 (code evaluation at the failing input): a non-numeric string
such as "abc" is caught and yields the error figure with the message, but
the value `None` — which the Dash number inputs deliver for an empty or
unparsable field and which `float` rejects with `TypeError` — escapes the
`except ValueError` handler, so `update_graph` crashes instead of
returning the error path. -/
theorem update_graph_crashes_on_none :
    update_graph_parse PyVal.pynone (PyVal.num 0) (PyVal.num 0) (PyVal.num 0) =
        Except.error PyExc.typeError ∧
      update_graph_parse (PyVal.str ("abc")) (PyVal.num 0) (PyVal.num 0) (PyVal.num 0) =
        Except.ok (UpdateOutcome.errorFigure invalid_coordinates_msg) :=
  ⟨rfl, rfl⟩

/-- Claim C1: for every real `bridge_x`, endpoints A, B and river width
`w ≥ 0`, `calculate_distance` returns `dist_A + w + dist_B`, where
`dist_A` and `dist_B` are the spec formulas for the two legs. -/
theorem calculate_distance_eq_spec (w bridge_x A_x A_y B_x B_y : ℝ) (hw : 0 ≤ w) :
    calculate_distance w bridge_x A_x A_y B_x B_y =
      spec_dist_A bridge_x A_x A_y + w + spec_dist_B w bridge_x B_x B_y := rfl

/-- Witness for C1 at w = 1, bridge_x = 3, A = (0, -3), B = (6, 6). -/
theorem calculate_distance_eq_spec_witness :
    0 ≤ (1 : ℝ) ∧
      calculate_distance 1 3 0 (-3) 6 6 =
        spec_dist_A 3 0 (-3) + 1 + spec_dist_B 1 3 6 6 :=
  ⟨by norm_num, calculate_distance_eq_spec 1 3 0 (-3) 6 6 (by norm_num)⟩

/-- Claim C2: for all finite A, B, width `w ≥ 0` and `bridge_x` in the
interval [0, 6], the total equals `distA + w + distB` and is at least `w`,
both legs being non-negative. -/
theorem total_decomposes_and_dominates_width (w bridge_x A_x A_y B_x B_y : ℝ)
    (hw : 0 ≤ w) (hx : bridge_x ∈ Set.Icc (0 : ℝ) 6) :
    calculate_distance w bridge_x A_x A_y B_x B_y =
        Real.sqrt ((A_x - bridge_x) ^ 2 + (A_y - 0) ^ 2) + w +
          Real.sqrt ((B_x - bridge_x) ^ 2 + (B_y - w) ^ 2) ∧
      w ≤ calculate_distance w bridge_x A_x A_y B_x B_y := by
  refine ⟨rfl, ?_⟩
  have h1 := Real.sqrt_nonneg ((A_x - bridge_x) ^ 2 + (A_y - 0) ^ 2)
  have h2 := Real.sqrt_nonneg ((B_x - bridge_x) ^ 2 + (B_y - w) ^ 2)
  unfold calculate_distance
  linarith

/-- Witness for C2 at w = 1, bridge_x = 3, A = (0, -3), B = (6, 6). -/
theorem total_decomposes_and_dominates_width_witness :
    0 ≤ (1 : ℝ) ∧ (3 : ℝ) ∈ Set.Icc (0 : ℝ) 6 ∧
      (calculate_distance 1 3 0 (-3) 6 6 =
          Real.sqrt ((0 - 3) ^ 2 + ((-3) - 0) ^ 2) + 1 +
            Real.sqrt ((6 - 3) ^ 2 + (6 - 1) ^ 2) ∧
        1 ≤ calculate_distance 1 3 0 (-3) 6 6) :=
  ⟨by norm_num, by constructor <;> norm_num,
    total_decomposes_and_dominates_width 1 3 0 (-3) 6 6 (by norm_num)
      (by constructor <;> norm_num)⟩

/-- Claim C7: the total is invariant under swapping A and B combined with
reflecting both endpoints across the river midline y = w/2: the total at
(x, A, B) equals the total at (x, Bref, Aref) with Aref = (A_x, w - A_y)
and Bref = (B_x, w - B_y). -/
theorem calculate_distance_reflection_swap (w x A_x A_y B_x B_y : ℝ) :
    calculate_distance w x A_x A_y B_x B_y =
      calculate_distance w x B_x (w - B_y) A_x (w - A_y) := by
  unfold calculate_distance
  rw [show (w - B_y - 0) ^ 2 = (B_y - w) ^ 2 by ring,
    show (w - A_y - w) ^ 2 = (A_y - 0) ^ 2 by ring]
  ring

/-- Claim C9: the total is invariant under a common horizontal translation
of the bridge and both endpoints, because the x coordinates enter only
through the differences `A_x - bridge_x` and `B_x - bridge_x`. -/
theorem calculate_distance_translation_invariant (w c bridge_x A_x A_y B_x B_y : ℝ) :
    calculate_distance w (bridge_x + c) (A_x + c) A_y (B_x + c) B_y =
      calculate_distance w bridge_x A_x A_y B_x B_y := by
  unfold calculate_distance
  rw [show (A_x + c - (bridge_x + c)) ^ 2 = (A_x - bridge_x) ^ 2 by ring,
    show (B_x + c - (bridge_x + c)) ^ 2 = (B_x - bridge_x) ^ 2 by ring]

/-- Claim C10: the leg distances recomputed inline in `update_graph`
(src/OptRoute.py lines 93-94) are consistent with the objective: the total
from `calculate_distance` (line 92, with the global `river_width`) equals
`dist_A_to_bridge + river_width + dist_bridge_to_B` with the inline
formulas. -/
theorem update_graph_inline_distances_consistent (bridge_x A_x A_y B_x B_y : ℝ) :
    calculate_distance river_width bridge_x A_x A_y B_x B_y =
      update_dist_A_to_bridge bridge_x A_x A_y + river_width +
        update_dist_bridge_to_B bridge_x B_x B_y := rfl

/-! ## The curve sampler (src/OptRoute.py lines 26-29) -/

/-- Embedding of `np.linspace(lo, hi, num)`: `num` evenly spaced samples
from `lo` to `hi` inclusive, the i-th being `lo + (hi - lo) * i / (num - 1)`. -/
noncomputable def linspace (lo hi : ℝ) (num : ℕ) : List ℝ :=
  (List.range num).map (fun i : ℕ => lo + (hi - lo) * (i : ℝ) / ((num - 1 : ℕ) : ℝ))

/-- Embedding of `generate_distance_curve(A_x, A_y, B_x, B_y)`
(src/OptRoute.py lines 26-29): `x_vals = np.linspace(0, 6, 500)` and
`y_vals = [calculate_distance(x, A_x, A_y, B_x, B_y) for x in x_vals]`,
with the global `river_width`. -/
noncomputable def generate_distance_curve (A_x A_y B_x B_y : ℝ) : List ℝ × List ℝ :=
  let x_vals := linspace 0 6 500
  (x_vals, x_vals.map (fun x => calculate_distance river_width x A_x A_y B_x B_y))

/-- The sampled abscissas are 6 i / 499 for i = 0, ..., 499. -/
lemma linspace_0_6_500 :
    linspace 0 6 500 = (List.range 500).map (fun i : ℕ => 6 * (i : ℝ) / 499) := by
  unfold linspace
  refine List.map_congr_left ?_
  intro i _
  norm_num

/-- A linspace has exactly the requested number of samples. -/
lemma linspace_length (lo hi : ℝ) (num : ℕ) : (linspace lo hi num).length = num := by
  unfold linspace
  rw [List.length_map, List.length_range]

/-- Claim C6: the sampled curve has exactly 500 points, with the x values
evenly spaced over [0, 6] (the i-th is 6 i / 499, so they start at 0, end
at 6, and advance by the constant step 6 / 499), and each sampled total is
`calculate_distance` applied at that x, so the curve is pointwise
consistent with the optimizer objective. -/
theorem generate_distance_curve_spec (A_x A_y B_x B_y : ℝ) :
    (generate_distance_curve A_x A_y B_x B_y).1.length = 500 ∧
      (generate_distance_curve A_x A_y B_x B_y).2.length = 500 ∧
      (generate_distance_curve A_x A_y B_x B_y).1 =
        (List.range 500).map (fun i : ℕ => 6 * (i : ℝ) / 499) ∧
      (generate_distance_curve A_x A_y B_x B_y).2 =
        (generate_distance_curve A_x A_y B_x B_y).1.map
          (fun x => calculate_distance river_width x A_x A_y B_x B_y) := by
  have h1 : (generate_distance_curve A_x A_y B_x B_y).1 = linspace 0 6 500 := rfl
  have h2 : (generate_distance_curve A_x A_y B_x B_y).2 =
      (linspace 0 6 500).map
        (fun x => calculate_distance river_width x A_x A_y B_x B_y) := rfl
  refine ⟨?_, ?_, ?_, ?_⟩
  · rw [h1, linspace_length]
  · rw [h2, List.length_map, linspace_length]
  · rw [h1, linspace_0_6_500]
  · rw [h1, h2]

/-! ## The Optimizer (src/OptRoute.py lines 84-86) -/

/-- Modelled from the spec: the Optimizer of `update_graph` is the call
`minimize_scalar(calculate_distance, bounds=(0, 6), args=(A_x, A_y, B_x, B_y),
method=bounded)`, whose implementation (the bounded Brent search of
scipy.optimize) is not part of this repository; only its call site is.
Per the spec contract, the Optimizer returns the `x` in the closed
interval [0, 6] minimizing `total(x)` together with the minimum total
value, for the global `river_width`.  `OptimizerSpec A B x t` says the
pair `(x, t)` is a correct output for endpoints A and B. -/
def OptimizerSpec (A_x A_y B_x B_y x t : ℝ) : Prop :=
  x ∈ Set.Icc (0 : ℝ) 6 ∧
    t = calculate_distance river_width x A_x A_y B_x B_y ∧
    ∀ y ∈ Set.Icc (0 : ℝ) 6,
      calculate_distance river_width x A_x A_y B_x B_y ≤
        calculate_distance river_width y A_x A_y B_x B_y

/-- The total is a continuous function of the bridge position. -/
lemma continuous_calculate_distance (w A_x A_y B_x B_y : ℝ) :
    Continuous (fun x : ℝ => calculate_distance w x A_x A_y B_x B_y) := by
  unfold calculate_distance
  have h1 : Continuous fun x : ℝ => (A_x - x) ^ 2 + (A_y - 0) ^ 2 := by continuity
  have h2 : Continuous fun x : ℝ => (B_x - x) ^ 2 + (B_y - w) ^ 2 := by continuity
  exact ((Real.continuous_sqrt.comp h1).add continuous_const).add
    (Real.continuous_sqrt.comp h2)

/-- Claim C3: for every A and B the Optimizer output exists: an `x` in
[0, 6] minimizing the total over the interval, reported with the minimum
total value, and the returned `x` agrees with a true constrained
minimizer to within 1e-4 (here exactly). -/
theorem optimizer_returns_constrained_minimizer (A_x A_y B_x B_y : ℝ) :
    ∃ x t, OptimizerSpec A_x A_y B_x B_y x t ∧
      ∃ xtrue, (xtrue ∈ Set.Icc (0 : ℝ) 6 ∧
          ∀ y ∈ Set.Icc (0 : ℝ) 6,
            calculate_distance river_width xtrue A_x A_y B_x B_y ≤
              calculate_distance river_width y A_x A_y B_x B_y) ∧
        |x - xtrue| ≤ 1 / 10000 := by
  obtain ⟨x, hx, hmin⟩ :=
    (isCompact_Icc : IsCompact (Set.Icc (0 : ℝ) 6)).exists_isMinOn
      ⟨0, by constructor <;> norm_num⟩
      ((continuous_calculate_distance river_width A_x A_y B_x B_y).continuousOn)
  have hle : ∀ y ∈ Set.Icc (0 : ℝ) 6,
      calculate_distance river_width x A_x A_y B_x B_y ≤
        calculate_distance river_width y A_x A_y B_x B_y :=
    isMinOn_iff.mp hmin
  exact ⟨x, calculate_distance river_width x A_x A_y B_x B_y, ⟨hx, rfl, hle⟩,
    x, ⟨hx, hle⟩, by rw [sub_self, abs_zero]; norm_num⟩

/-! ## Convexity of the total in the bridge position -/

/-- Each Euclidean leg `sqrt((a - x)^2 + c^2)` is convex in `x`. -/
lemma sqrt_term_convex (a c x y t s : ℝ) (ht : 0 ≤ t) (hs : 0 ≤ s) (hts : t + s = 1) :
    Real.sqrt ((a - (t * x + s * y)) ^ 2 + c ^ 2) ≤
      t * Real.sqrt ((a - x) ^ 2 + c ^ 2) + s * Real.sqrt ((a - y) ^ 2 + c ^ 2) := by
  have hB0 : (0 : ℝ) ≤ (a - x) ^ 2 + c ^ 2 := by positivity
  have hC0 : (0 : ℝ) ≤ (a - y) ^ 2 + c ^ 2 := by positivity
  have hsqB := Real.sq_sqrt hB0
  have hsqC := Real.sq_sqrt hC0
  have hprod : (a - x) * (a - y) + c ^ 2 ≤
      Real.sqrt ((a - x) ^ 2 + c ^ 2) * Real.sqrt ((a - y) ^ 2 + c ^ 2) := by
    rw [← Real.sqrt_mul hB0]
    apply Real.le_sqrt_of_sq_le
    nlinarith [sq_nonneg (c * ((a - x) - (a - y)))]
  have hmid : a - (t * x + s * y) = t * (a - x) + s * (a - y) := by
    linear_combination (-a) * hts
  have hR0 : 0 ≤ t * Real.sqrt ((a - x) ^ 2 + c ^ 2) +
      s * Real.sqrt ((a - y) ^ 2 + c ^ 2) := by positivity
  rw [hmid]
  have hexp : (t * Real.sqrt ((a - x) ^ 2 + c ^ 2) +
        s * Real.sqrt ((a - y) ^ 2 + c ^ 2)) ^ 2 =
      t ^ 2 * ((a - x) ^ 2 + c ^ 2) + s ^ 2 * ((a - y) ^ 2 + c ^ 2) +
        2 * t * s * (Real.sqrt ((a - x) ^ 2 + c ^ 2) *
          Real.sqrt ((a - y) ^ 2 + c ^ 2)) := by
    linear_combination t ^ 2 * hsqB + s ^ 2 * hsqC
  have h2ts : 2 * t * s * ((a - x) * (a - y) + c ^ 2) ≤
      2 * t * s * (Real.sqrt ((a - x) ^ 2 + c ^ 2) *
        Real.sqrt ((a - y) ^ 2 + c ^ 2)) := by
    have hts0 : 0 ≤ 2 * t * s := by positivity
    nlinarith [hts0, hprod]
  have hA : (t * (a - x) + s * (a - y)) ^ 2 + c ^ 2 ≤
      (t * Real.sqrt ((a - x) ^ 2 + c ^ 2) +
        s * Real.sqrt ((a - y) ^ 2 + c ^ 2)) ^ 2 := by
    have hc : c ^ 2 * (t ^ 2 + 2 * t * s + s ^ 2) = c ^ 2 := by
      linear_combination (c ^ 2 * (t + s + 1)) * hts
    rw [hexp]
    nlinarith [h2ts, hc]
  calc Real.sqrt ((t * (a - x) + s * (a - y)) ^ 2 + c ^ 2)
      ≤ Real.sqrt ((t * Real.sqrt ((a - x) ^ 2 + c ^ 2) +
          s * Real.sqrt ((a - y) ^ 2 + c ^ 2)) ^ 2) := Real.sqrt_le_sqrt hA
    _ = t * Real.sqrt ((a - x) ^ 2 + c ^ 2) +
          s * Real.sqrt ((a - y) ^ 2 + c ^ 2) := Real.sqrt_sq hR0

/-- The total is convex in the bridge position. -/
lemma calculate_distance_convex (w A_x A_y B_x B_y x y t s : ℝ)
    (ht : 0 ≤ t) (hs : 0 ≤ s) (hts : t + s = 1) :
    calculate_distance w (t * x + s * y) A_x A_y B_x B_y ≤
      t * calculate_distance w x A_x A_y B_x B_y +
        s * calculate_distance w y A_x A_y B_x B_y := by
  have h1 := sqrt_term_convex A_x (A_y - 0) x y t s ht hs hts
  have h2 := sqrt_term_convex B_x (B_y - w) x y t s ht hs hts
  have hw : t * w + s * w = w := by linear_combination w * hts
  unfold calculate_distance
  nlinarith [h1, h2, hw]

/-- If the total at `xu` is a lower bound for the total at `y` and `b` is
a convex combination of `xu` and `y`, the total at `b` does not exceed the
total at `y`. -/
lemma total_le_of_between (A_x A_y B_x B_y b xu y t s : ℝ)
    (hmin : calculate_distance river_width xu A_x A_y B_x B_y ≤
      calculate_distance river_width y A_x A_y B_x B_y)
    (ht : 0 ≤ t) (hs : 0 ≤ s) (hts : t + s = 1) (hb : b = t * xu + s * y) :
    calculate_distance river_width b A_x A_y B_x B_y ≤
      calculate_distance river_width y A_x A_y B_x B_y := by
  have hc := calculate_distance_convex river_width A_x A_y B_x B_y xu y t s ht hs hts
  have hstep := mul_le_mul_of_nonneg_left hmin ht
  have hw : t * calculate_distance river_width y A_x A_y B_x B_y +
      s * calculate_distance river_width y A_x A_y B_x B_y =
      calculate_distance river_width y A_x A_y B_x B_y := by
    linear_combination (calculate_distance river_width y A_x A_y B_x B_y) * hts
  rw [hb]
  linarith [hc, hstep, hw]

/-- Claim C4: when the unique unconstrained minimizer `xu` of the total
lies outside [0, 6], the Optimizer returns exactly the nearest interval
bound (0 when `xu < 0`, 6 when `xu > 6`) together with the total at that
bound: the bound is a correct optimizer output, and every correct
optimizer output equals it. -/
theorem optimizer_clamps_to_nearest_bound (A_x A_y B_x B_y xu : ℝ)
    (hmin : ∀ y : ℝ, calculate_distance river_width xu A_x A_y B_x B_y ≤
      calculate_distance river_width y A_x A_y B_x B_y)
    (huniq : ∀ z : ℝ, (∀ y : ℝ, calculate_distance river_width z A_x A_y B_x B_y ≤
      calculate_distance river_width y A_x A_y B_x B_y) → z = xu) :
    (xu < 0 →
      OptimizerSpec A_x A_y B_x B_y 0 (calculate_distance river_width 0 A_x A_y B_x B_y) ∧
      ∀ x t, OptimizerSpec A_x A_y B_x B_y x t →
        x = 0 ∧ t = calculate_distance river_width 0 A_x A_y B_x B_y) ∧
    (6 < xu →
      OptimizerSpec A_x A_y B_x B_y 6 (calculate_distance river_width 6 A_x A_y B_x B_y) ∧
      ∀ x t, OptimizerSpec A_x A_y B_x B_y x t →
        x = 6 ∧ t = calculate_distance river_width 6 A_x A_y B_x B_y) := by
  constructor
  · intro hxu
    have hspec0 : ∀ y ∈ Set.Icc (0 : ℝ) 6,
        calculate_distance river_width 0 A_x A_y B_x B_y ≤
          calculate_distance river_width y A_x A_y B_x B_y := by
      intro y hy
      rcases eq_or_lt_of_le hy.1 with h0 | h0
      · rw [← h0]
      · have hd : 0 < y - xu := by linarith
        refine total_le_of_between A_x A_y B_x B_y 0 xu y
          (y / (y - xu)) ((-xu) / (y - xu)) (hmin y)
          (div_nonneg h0.le hd.le) (div_nonneg (by linarith) hd.le) ?_ ?_
        · field_simp
          try ring
        · field_simp
          try ring
    refine ⟨⟨by constructor <;> norm_num, rfl, hspec0⟩, ?_⟩
    intro x t hxt
    obtain ⟨hxmem, hteq, hxle⟩ := hxt
    have h1 : calculate_distance river_width 0 A_x A_y B_x B_y ≤
        calculate_distance river_width x A_x A_y B_x B_y := hspec0 x hxmem
    have h2 : calculate_distance river_width x A_x A_y B_x B_y ≤
        calculate_distance river_width 0 A_x A_y B_x B_y :=
      hxle 0 (by constructor <;> norm_num)
    have heq : calculate_distance river_width x A_x A_y B_x B_y =
        calculate_distance river_width 0 A_x A_y B_x B_y := le_antisymm h2 h1
    have hx0 : x = 0 := by
      rcases eq_or_lt_of_le hxmem.1 with h0 | h0
      · exact h0.symm
      · exfalso
        have hd : 0 < x - xu := by linarith
        have htpos : 0 < x / (x - xu) := div_pos h0 hd
        have hspos : 0 ≤ (-xu) / (x - xu) := div_nonneg (by linarith) hd.le
        have hts : x / (x - xu) + (-xu) / (x - xu) = 1 := by
          field_simp
          try ring
        have hcomb : (x / (x - xu)) * xu + ((-xu) / (x - xu)) * x = 0 := by
          field_simp
          ring
        have hconv := calculate_distance_convex river_width A_x A_y B_x B_y xu x
          (x / (x - xu)) ((-xu) / (x - xu)) htpos.le hspos hts
        rw [hcomb, heq] at hconv
        have htsF : x / (x - xu) * calculate_distance river_width 0 A_x A_y B_x B_y +
            (-xu) / (x - xu) * calculate_distance river_width 0 A_x A_y B_x B_y =
            calculate_distance river_width 0 A_x A_y B_x B_y := by
          linear_combination (calculate_distance river_width 0 A_x A_y B_x B_y) * hts
        have hmul : (x / (x - xu)) * calculate_distance river_width 0 A_x A_y B_x B_y ≤
            (x / (x - xu)) * calculate_distance river_width xu A_x A_y B_x B_y := by
          linarith [hconv, htsF]
        have hle0 : calculate_distance river_width 0 A_x A_y B_x B_y ≤
            calculate_distance river_width xu A_x A_y B_x B_y :=
          (mul_le_mul_left htpos).mp hmul
        have heq2 : calculate_distance river_width xu A_x A_y B_x B_y =
            calculate_distance river_width 0 A_x A_y B_x B_y :=
          le_antisymm (hmin 0) hle0
        have h0min : ∀ y : ℝ, calculate_distance river_width 0 A_x A_y B_x B_y ≤
            calculate_distance river_width y A_x A_y B_x B_y := by
          intro y
          rw [← heq2]
          exact hmin y
        have := huniq 0 h0min
        linarith
    exact ⟨hx0, by rw [hteq, hx0]⟩
  · intro hxu
    have hspec6 : ∀ y ∈ Set.Icc (0 : ℝ) 6,
        calculate_distance river_width 6 A_x A_y B_x B_y ≤
          calculate_distance river_width y A_x A_y B_x B_y := by
      intro y hy
      rcases eq_or_lt_of_le hy.2 with h6 | h6
      · rw [h6]
      · have hd : 0 < xu - y := by linarith
        refine total_le_of_between A_x A_y B_x B_y 6 xu y
          ((6 - y) / (xu - y)) ((xu - 6) / (xu - y)) (hmin y)
          (div_nonneg (by linarith) hd.le) (div_nonneg (by linarith) hd.le) ?_ ?_
        · field_simp
          try ring
        · field_simp
          try ring
    refine ⟨⟨by constructor <;> norm_num, rfl, hspec6⟩, ?_⟩
    intro x t hxt
    obtain ⟨hxmem, hteq, hxle⟩ := hxt
    have h1 : calculate_distance river_width 6 A_x A_y B_x B_y ≤
        calculate_distance river_width x A_x A_y B_x B_y := hspec6 x hxmem
    have h2 : calculate_distance river_width x A_x A_y B_x B_y ≤
        calculate_distance river_width 6 A_x A_y B_x B_y :=
      hxle 6 (by constructor <;> norm_num)
    have heq : calculate_distance river_width x A_x A_y B_x B_y =
        calculate_distance river_width 6 A_x A_y B_x B_y := le_antisymm h2 h1
    have hx6 : x = 6 := by
      rcases eq_or_lt_of_le hxmem.2 with h6 | h6
      · exact h6
      · exfalso
        have hd : 0 < xu - x := by linarith
        have htpos : 0 < (6 - x) / (xu - x) := div_pos (by linarith) hd
        have hspos : 0 ≤ (xu - 6) / (xu - x) := div_nonneg (by linarith) hd.le
        have hts : (6 - x) / (xu - x) + (xu - 6) / (xu - x) = 1 := by
          field_simp
          try ring
        have hcomb : ((6 - x) / (xu - x)) * xu + ((xu - 6) / (xu - x)) * x = 6 := by
          field_simp
          ring
        have hconv := calculate_distance_convex river_width A_x A_y B_x B_y xu x
          ((6 - x) / (xu - x)) ((xu - 6) / (xu - x)) htpos.le hspos hts
        rw [hcomb, heq] at hconv
        have htsF : (6 - x) / (xu - x) * calculate_distance river_width 6 A_x A_y B_x B_y +
            (xu - 6) / (xu - x) * calculate_distance river_width 6 A_x A_y B_x B_y =
            calculate_distance river_width 6 A_x A_y B_x B_y := by
          linear_combination (calculate_distance river_width 6 A_x A_y B_x B_y) * hts
        have hmul : ((6 - x) / (xu - x)) * calculate_distance river_width 6 A_x A_y B_x B_y ≤
            ((6 - x) / (xu - x)) * calculate_distance river_width xu A_x A_y B_x B_y := by
          linarith [hconv, htsF]
        have hle6 : calculate_distance river_width 6 A_x A_y B_x B_y ≤
            calculate_distance river_width xu A_x A_y B_x B_y :=
          (mul_le_mul_left htpos).mp hmul
        have heq2 : calculate_distance river_width xu A_x A_y B_x B_y =
            calculate_distance river_width 6 A_x A_y B_x B_y :=
          le_antisymm (hmin 6) hle6
        have h6min : ∀ y : ℝ, calculate_distance river_width 6 A_x A_y B_x B_y ≤
            calculate_distance river_width y A_x A_y B_x B_y := by
          intro y
          rw [← heq2]
          exact hmin y
        have := huniq 6 h6min
        linarith
    exact ⟨hx6, by rw [hteq, hx6]⟩

/-- In the degenerate configuration A = (a, 0), B = (a, 1) the total
collapses to `2 |a - z| + 1`. -/
lemma degenerate_total (a z : ℝ) :
    calculate_distance river_width z a 0 a 1 = 2 * |a - z| + 1 := by
  unfold calculate_distance river_width
  rw [show ((0 : ℝ) - 0) ^ 2 = 0 by ring, show ((1 : ℝ) - 1) ^ 2 = 0 by ring,
    add_zero, Real.sqrt_sq_eq_abs]
  ring

/-- For A = (-2, 0), B = (-2, 1) the point xu = -2 minimizes the total
over all of ℝ. -/
lemma wit_min_neg2 : ∀ y : ℝ,
    calculate_distance river_width (-2) (-2) 0 (-2) 1 ≤
      calculate_distance river_width y (-2) 0 (-2) 1 := by
  intro y
  rw [degenerate_total, degenerate_total]
  have h0 : |(-2 : ℝ) - (-2)| = 0 := by norm_num
  rw [h0]
  have := abs_nonneg ((-2 : ℝ) - y)
  linarith

/-- For A = (-2, 0), B = (-2, 1) the unconstrained minimizer is unique. -/
lemma wit_uniq_neg2 : ∀ z : ℝ,
    (∀ y : ℝ, calculate_distance river_width z (-2) 0 (-2) 1 ≤
      calculate_distance river_width y (-2) 0 (-2) 1) → z = -2 := by
  intro z hz
  have h2 := hz (-2)
  rw [degenerate_total, degenerate_total] at h2
  have h0 : |(-2 : ℝ) - (-2)| = 0 := by norm_num
  rw [h0] at h2
  have habs : |(-2 : ℝ) - z| ≤ 0 := by linarith
  have hz0 : (-2 : ℝ) - z = 0 := abs_eq_zero.mp (le_antisymm habs (abs_nonneg _))
  linarith

/-- Witness for C4: with A = (-2, 0), B = (-2, 1) the unique unconstrained
minimizer -2 lies left of the interval, and the bound 0 paired with its
total is a correct optimizer output. -/
theorem optimizer_clamps_to_nearest_bound_witness :
    OptimizerSpec (-2) 0 (-2) 1 0 (calculate_distance river_width 0 (-2) 0 (-2) 1) :=
  ((optimizer_clamps_to_nearest_bound (-2) 0 (-2) 1 (-2) wit_min_neg2 wit_uniq_neg2).1
    (by norm_num)).1

/-- Claim C8: the Optimizer is deterministic: for identical inputs, any
two outputs satisfying the Optimizer contract agree, when the constrained
minimizer is unique (as the spec guarantees for the convex objective);
the underlying DistanceModel is a pure function of its arguments. -/
theorem optimizer_deterministic (A_x A_y B_x B_y x1 t1 x2 t2 : ℝ)
    (h1 : OptimizerSpec A_x A_y B_x B_y x1 t1)
    (h2 : OptimizerSpec A_x A_y B_x B_y x2 t2)
    (huniq : ∀ a b : ℝ,
      OptimizerSpec A_x A_y B_x B_y a (calculate_distance river_width a A_x A_y B_x B_y) →
      OptimizerSpec A_x A_y B_x B_y b (calculate_distance river_width b A_x A_y B_x B_y) →
      a = b) :
    x1 = x2 ∧ t1 = t2 := by
  obtain ⟨hm1, hteq1, hle1⟩ := h1
  obtain ⟨hm2, hteq2, hle2⟩ := h2
  have hx : x1 = x2 := huniq x1 x2 ⟨hm1, rfl, hle1⟩ ⟨hm2, rfl, hle2⟩
  refine ⟨hx, ?_⟩
  rw [hteq1, hteq2, hx]

/-- For A = (3, 0), B = (3, 1) the pair (3, total at 3) satisfies the
Optimizer contract. -/
lemma wit_det_spec3 : OptimizerSpec 3 0 3 1 3 (calculate_distance river_width 3 3 0 3 1) := by
  refine ⟨by constructor <;> norm_num, rfl, ?_⟩
  intro y hy
  rw [degenerate_total, degenerate_total]
  have h0 : |(3 : ℝ) - 3| = 0 := by norm_num
  rw [h0]
  have := abs_nonneg ((3 : ℝ) - y)
  linarith

/-- For A = (3, 0), B = (3, 1) the constrained minimizer is unique. -/
lemma wit_det_uniq3 : ∀ a b : ℝ,
    OptimizerSpec 3 0 3 1 a (calculate_distance river_width a 3 0 3 1) →
    OptimizerSpec 3 0 3 1 b (calculate_distance river_width b 3 0 3 1) → a = b := by
  have key : ∀ a : ℝ,
      OptimizerSpec 3 0 3 1 a (calculate_distance river_width a 3 0 3 1) → a = 3 := by
    intro a ha
    obtain ⟨hmem, hteq, hle⟩ := ha
    have h2 := hle 3 (by constructor <;> norm_num)
    rw [degenerate_total, degenerate_total] at h2
    have h0 : |(3 : ℝ) - 3| = 0 := by norm_num
    rw [h0] at h2
    have habs : |(3 : ℝ) - a| ≤ 0 := by linarith
    have ha0 : (3 : ℝ) - a = 0 := abs_eq_zero.mp (le_antisymm habs (abs_nonneg _))
    linarith
  intro a b ha hb
  rw [key a ha, key b hb]

/-- Witness for C8 at A = (3, 0), B = (3, 1): both optimizer outputs are
(3, total at 3) and the theorem makes them coincide. -/
theorem optimizer_deterministic_witness :
    (3 : ℝ) = 3 ∧ calculate_distance river_width 3 3 0 3 1 =
      calculate_distance river_width 3 3 0 3 1 :=
  optimizer_deterministic 3 0 3 1 3 (calculate_distance river_width 3 3 0 3 1) 3
    (calculate_distance river_width 3 3 0 3 1) wit_det_spec3 wit_det_spec3 wit_det_uniq3

end OptRoute
